import Mathlib

/-!
Shallow embedding of `src/loader/company_news_loader.py` (the stream loader of the
ZIGHANG crawl repository) together with theorems checking the specification's
claims about it.

Conventions of the embedding:
* Python strings are Lean `String`s; a missing (`None`) string field is `""` when the
  code only ever uses the value through `or`-defaulting (`f.get("source") or ""`),
  and `Option String` when the code distinguishes presence (`k in f`).
* `str.strip()` is `pyStrip`, `str.lower()` is `pyLower` (defined on the character
  list so that they evaluate by kernel reduction).
* The in-memory `done` dictionary is modelled as a total function
  `(String × String) → Nat`, matching the code which only ever reads it through
  `done.get(key, 0)`.
* The `expected` dictionary is an association list updated with last-write-wins
  assignment, because the loop inspects its key set and emptiness.
* MySQL is modelled by an explicit `Db` state; a database exception while
  processing one entry is an oracle bit `dbFail` on the entry (the failure is
  placed at the entry's first database operation), and the success of the
  batch-level `db.commit()` is an oracle bit `commitOk` of the batch.
-/

namespace Loader

/-- Python `s.lower()` restricted to ASCII-style per-character lowering. -/
def pyLower (s : String) : String := ⟨s.data.map Char.toLower⟩

/-- Python `s.strip()`: drop whitespace from both ends. -/
def pyStrip (s : String) : String :=
  ⟨((s.data.dropWhile Char.isWhitespace).reverse.dropWhile Char.isWhitespace).reverse⟩

/-- Python `(s or "").strip().lower()`, the normalisation applied to `source` fields. -/
def normSource (s : String) : String := pyLower (pyStrip s)

/-- Line 75-77: `parse_date_yyyy_mm_dd` returns `None` for a falsy input and
otherwise the slice `s[:10]` (the first 10 characters). -/
def parse_date_yyyy_mm_dd (s : String) : Option String :=
  if s = "" then none else some ⟨s.data.take 10⟩

/-- Lines 62-66: `DEFAULT_COMPANY_MAP`, source → `[name_en, name_kr]`. -/
def DEFAULT_COMPANY_MAP : List (String × List String) :=
  [("toss", ["Toss", "토스"]),
   ("kakao", ["Kakao", "카카오"]),
   ("naver", ["Naver", "네이버"])]

/-- Python `COMPANY_MAP.get(key)` on the configured mapping (an association list here;
JSON objects have unique keys, and `find?` returns the first binding). -/
def mapGet (cmap : List (String × List String)) (key : String) : Option (List String) :=
  (cmap.find? (fun kv => kv.1 = key)).map (fun kv => kv.2)

/-- Lines 79-84: `get_company_names`.  The key is the stripped, lowered source; a
mapped pair of length ≥ 2 yields `(pair[0], pair[1])`; otherwise the fallback is
`((src or "unknown").strip(), (src or "미지정").strip())`.  (In the Python code the
mapping values are JSON lists, so the `isinstance(pair, (list, tuple))` guard is
carried by the type here.) -/
def get_company_names (cmap : List (String × List String)) (src_from_record : String) :
    String × String :=
  let key := pyLower (pyStrip src_from_record)
  match mapGet cmap key with
  | some pair =>
      if 2 ≤ pair.length then (pair.getD 0 "", pair.getD 1 "")
      else (pyStrip (if src_from_record = "" then "unknown" else src_from_record),
            pyStrip (if src_from_record = "" then "미지정" else src_from_record))
  | none =>
      (pyStrip (if src_from_record = "" then "unknown" else src_from_record),
       pyStrip (if src_from_record = "" then "미지정" else src_from_record))

/-- Line 199: `mark_done` adds `n` to the done counter of one key; the dictionary is
modelled as a total function read through `done.get(key, 0)`. -/
def mark_done (done : String × String → Nat) (key : String × String) (n : Nat) :
    String × String → Nat :=
  fun k => if k = key then done key + n else done k

/-- Lines 201-208: `all_finished` returns False on an empty `expected` table, returns
False when a configured required-sources set is not covered by the sources seen in
`expected`, and otherwise checks `done.get(k, 0) >= v` for every item of `expected`. -/
def all_finished (required : List String) (expected : List ((String × String) × Nat))
    (done : String × String → Nat) : Bool :=
  if expected.isEmpty then false
  else if !required.isEmpty &&
      !(required.all (fun s => expected.any (fun kv => kv.1.2 == s))) then false
  else expected.all (fun kv => decide (kv.2 ≤ done kv.1))

/-- Modelled from the claim's words (C5), for comparison with `all_finished`: every
key present in `expected` satisfies `done ≥ expected`, and, when a required-sources
list is configured, every required source appears among the keys of `expected`. -/
def all_finished_claim (required : List String) (expected : List ((String × String) × Nat))
    (done : String × String → Nat) : Bool :=
  (expected.all (fun kv => decide (kv.2 ≤ done kv.1))) &&
  (required.all (fun s => expected.any (fun kv => kv.1.2 == s)))

/-- Observations one evaluation of the exit checks (lines 332-369) makes: the clock
values and the two pending-count introspection queries with their success bits.  A
failed query (`q1ok`/`q2ok` false) models the `except` branches at lines 345-347 and
362-364. -/
structure ExitObs where
  now : Nat
  last_activity : Nat
  start_ts : Nat
  pend1 : Nat × Nat
  q1ok : Bool
  pend2 : Nat × Nat
  q2ok : Bool

/-- Reason the loop in `main` breaks out. -/
inductive ExitReason where
  | finishedQuiet
  | quietFallback
  | maxRun
  deriving DecidableEq

/-- Lines 332-369: the per-iteration exit decision.  `none` means the loop
continues.  Check (1), lines 334-349: `all_finished` plus quiet window plus the
pending check (exit on introspection failure).  Check (2), lines 351-364: quiet
window plus pending counts zero plus `expected` still empty (exit on introspection
failure).  Check (3), lines 366-369: the `MAX_RUN_S` hard cap. -/
def exitDecision (QUIET_S MAX_RUN_S : Nat) (required : List String)
    (expected : List ((String × String) × Nat)) (done : String × String → Nat)
    (o : ExitObs) : Option ExitReason :=
  let step3 : Option ExitReason :=
    if MAX_RUN_S ≤ o.now - o.start_ts then some .maxRun else none
  let step2 : Option ExitReason :=
    if QUIET_S ≤ o.now - o.last_activity then
      if o.q2ok then
        if o.pend2.1 = 0 ∧ o.pend2.2 = 0 ∧ expected.isEmpty = true then some .quietFallback
        else step3
      else some .quietFallback
    else step3
  if all_finished required expected done = true then
    if QUIET_S ≤ o.now - o.last_activity then
      if o.q1ok then
        if o.pend1.1 = 0 ∧ o.pend1.2 = 0 then some .finishedQuiet
        else step2
      else some .finishedQuiet
    else step2
  else step2

/-- A concrete quiet, fully-drained observation: 200 s into the run, no activity
since start, both pending queries succeed and read zero. -/
def exitObsQuiet : ExitObs :=
  { now := 200, last_activity := 0, start_ts := 0,
    pend1 := (0, 0), q1ok := true, pend2 := (0, 0), q2ok := true }

/-- One decoded item of the `records` JSON array; a JSON field that is absent or
null is `""`, matching how every use site defaults it. -/
structure RecordItem where
  url : String
  title : String
  published_at : String
  thumbnail_url : String
  source : String
  deriving DecidableEq

/-- The `records` field of a record-stream entry: absent, present but not valid
JSON (`json.loads` raises, lines 254-258), or a parsed JSON array. -/
inductive RecordsField where
  | absent
  | invalid (raw : String)
  | parsed (items : List RecordItem)
  deriving DecidableEq

/-- The string-keyed field map of one record-stream entry, restricted to the keys
the loader reads.  The four inline keys are `Option` because line 262 tests key
presence (`k in f`); `batch_id` and `source` are only ever read through
`or`-defaulting, so a missing value is `""`. -/
structure EntryFields where
  batch_id : String
  source : String
  records : RecordsField
  url : Option String
  title : Option String
  published_at : Option String
  thumbnail_url : Option String
  deriving DecidableEq

/-- One pending message of the records stream together with the oracle bit saying
whether a database error occurs while the loader processes it; the failure is
modelled at the entry's first cursor operation (lines 279-300 can raise). -/
structure EntryMsg where
  mid : String
  fields : EntryFields
  dbFail : Bool
  deriving DecidableEq

/-- Lines 252-271: decode the `records` array.  A JSON parse failure degrades to
`[]` (lines 256-258); an empty result falls back to one record synthesized from the
inline fields when at least one of the four inline keys is present (lines 261-269). -/
def decodeRecords (f : EntryFields) : List RecordItem :=
  let records : List RecordItem :=
    match f.records with
    | .parsed items => items
    | _ => []
  if records.isEmpty then
    if f.url.isSome || f.title.isSome || f.published_at.isSome || f.thumbnail_url.isSome then
      [{ url := f.url.getD "", title := f.title.getD "",
         published_at := f.published_at.getD "", thumbnail_url := f.thumbnail_url.getD "",
         source := f.source }]
    else []
  else records

/-- One row of `company_news` as written by lines 296-301. -/
structure NewsRow where
  title : String
  published_at : Option String
  thumbnail_url : String
  deriving DecidableEq

/-- The MySQL state the loader touches.  `company_name` is UNIQUE and the loader
resolves the numeric id from the name (lines 280-285), so rows are keyed here by
the name, and `company_news` rows by `(company_name, url)`. -/
structure Db where
  companies : List (String × String)
  news : List ((String × String) × NewsRow)
  deriving DecidableEq

/-- Lines 103-108 and 279: `UPSERT_COMPANY` — insert the company, or on duplicate
key update `company_name_kr` (the COALESCE of the non-NULL parameter keeps the new
value). -/
def upsertCompany (db : Db) (name kr : String) : Db :=
  if db.companies.any (fun kv => kv.1 == name) then
    { db with companies :=
        db.companies.map (fun kv => if kv.1 = name then (kv.1, kr) else kv) }
  else
    { db with companies := db.companies ++ [(name, kr)] }

/-- Lines 288-301: for a record with a non-empty url, `UPDATE` keyed on
`(company, url)` and, when no row matched, `INSERT`; a record with an empty url is
skipped (lines 290-291). -/
def newsUpsert (db : Db) (company : String) (rec : RecordItem) : Db :=
  if rec.url = "" then db
  else if db.news.any (fun kv => kv.1 == (company, rec.url)) then
    { db with news :=
        db.news.map (fun kv =>
          if kv.1 = (company, rec.url) then
            (kv.1, { title := rec.title,
                     published_at := parse_date_yyyy_mm_dd rec.published_at,
                     thumbnail_url := rec.thumbnail_url })
          else kv) }
  else
    { db with news :=
        db.news ++ [((company, rec.url),
          { title := rec.title, published_at := parse_date_yyyy_mm_dd rec.published_at,
            thumbnail_url := rec.thumbnail_url })] }

/-- Lines 313-316: the entry appended to the `crawl:dlq` stream on a processing
failure; `reason` is `str(e)`, an opaque message modelled by a fixed marker. -/
structure DeadLetterEntry where
  stream : String
  msg_id : String
  reason : String
  fields : EntryFields
  deriving DecidableEq

/-- In-flight state while the batch loop (lines 245-316) runs: the uncommitted
cursor view of the database, the in-memory `done` map, the dead-letter stream, and
the entry ids collected in `ack_r`. -/
structure ProcState where
  db : Db
  done : String × String → Nat
  dlq : List DeadLetterEntry
  acks : List String

/-- Placeholder record used only to spell `records[0]` on a list known non-empty. -/
def defaultRecordItem : RecordItem :=
  { url := "", title := "", published_at := "", thumbnail_url := "", source := "" }

/-- Line 303: the progress key of one entry, `(batch_id, src_top or
records[0].source stripped and lowered)`. -/
def entryKey (f : EntryFields) : String × String :=
  let src_top := normSource f.source
  (f.batch_id,
   if src_top = "" then normSource ((decodeRecords f).headD defaultRecordItem).source
   else src_top)

/-- Lines 246-316: processing of one entry of the records stream inside the open
transaction.  An empty decode is acked and skipped (273-275).  A database failure
is caught, the entry is dead-lettered and **not** added to `ack_r` (311-316).
Otherwise the company is resolved and upserted once per entry (277-285), every
url-bearing record is upserted (288-301), `done` is bumped by the full decoded
record count when both key components are non-empty (303-305), and the entry id is
collected for ack (307). -/
def processEntry (cmap : List (String × List String)) (st : ProcState) (e : EntryMsg) :
    ProcState :=
  let f := e.fields
  let src_top := normSource f.source
  let records := decodeRecords f
  if records.isEmpty then
    { st with acks := st.acks ++ [e.mid] }
  else if e.dbFail then
    { st with dlq := st.dlq ++ [{ stream := "crawl:records", msg_id := e.mid,
                                  reason := "database error", fields := f }] }
  else
    let names := get_company_names cmap
      (if src_top = "" then (records.headD defaultRecordItem).source else src_top)
    let db1 := upsertCompany st.db names.1 names.2
    let db2 := records.foldl (fun d rec => newsUpsert d names.1 rec) db1
    let key := entryKey f
    let done1 :=
      if key.1 ≠ "" ∧ key.2 ≠ "" then mark_done st.done key records.length else st.done
    { db := db2, done := done1, dlq := st.dlq, acks := st.acks ++ [e.mid] }

/-- Result of one poll of the records stream (lines 237-330): the committed
database state, the final in-memory data, the ids passed to XACK, and whether
`db.commit()` (line 318) succeeded.  On a commit failure the exception escapes the
loop: the transaction is not applied and nothing is acked, but the in-memory `done`
updates and the dead-letter entries (already sent with XADD) remain. -/
structure BatchResult where
  db : Db
  done : String × String → Nat
  dlq : List DeadLetterEntry
  acks : List String
  committed : Bool

/-- Lines 237-330 for one polled batch of entries, with `commitOk` the oracle bit
for the success of the single `db.commit()` at line 318. -/
def processBatch (cmap : List (String × List String)) (db : Db)
    (done : String × String → Nat) (dlq : List DeadLetterEntry)
    (entries : List EntryMsg) (commitOk : Bool) : BatchResult :=
  let st := entries.foldl (processEntry cmap) { db := db, done := done, dlq := dlq, acks := [] }
  if commitOk then
    { db := st.db, done := st.done, dlq := st.dlq, acks := st.acks, committed := true }
  else
    { db := db, done := st.done, dlq := st.dlq, acks := [], committed := false }

/-- The empty database and a fresh in-process state, used by concrete runs. -/
def emptyDb : Db := { companies := [], news := [] }

/-- Fresh in-flight state: empty database view, zero done counters, no dead
letters, no pending acks. -/
def procState0 : ProcState := { db := emptyDb, done := fun _ => 0, dlq := [], acks := [] }

/-- Membership of a `(company_name, url)` key in the `company_news` table. -/
def dbHasNews (db : Db) (k : String × String) : Bool :=
  db.news.any (fun kv => kv.1 == k)

/-- Concrete well-formed entry: batch b1, source toss, two url-bearing records
(the spec §8 end-to-end example). -/
def sampleEntry : EntryMsg :=
  { mid := "1700000000000-0",
    fields := { batch_id := "b1", source := "toss",
                records := RecordsField.parsed
                  [{ url := "https://x/1", title := "T1",
                     published_at := "2025-01-02T03:04:05Z",
                     thumbnail_url := "https://img/1", source := "" },
                   { url := "https://x/2", title := "T2", published_at := "2025-01-03",
                     thumbnail_url := "", source := "" }],
                url := none, title := none, published_at := none, thumbnail_url := none },
    dbFail := false }

/-- Concrete entry whose database writes raise. -/
def poisonedEntry : EntryMsg :=
  { mid := "m2",
    fields := { batch_id := "b2", source := "toss",
                records := RecordsField.parsed
                  [{ url := "https://x/3", title := "T3", published_at := "2025-02-01",
                     thumbnail_url := "", source := "" }],
                url := none, title := none, published_at := none, thumbnail_url := none },
    dbFail := true }

/-- Concrete entry whose `records` field is a string that is not valid JSON and
which carries no inline single-record fields. -/
def invalidJsonEntry : EntryMsg :=
  { mid := "m3",
    fields := { batch_id := "b3", source := "toss",
                records := RecordsField.invalid "not valid json",
                url := none, title := none, published_at := none, thumbnail_url := none },
    dbFail := false }

/-- Concrete entry mixing a url-less record with a url-bearing one. -/
def mixedUrlEntry : EntryMsg :=
  { mid := "m4",
    fields := { batch_id := "b4", source := "toss",
                records := RecordsField.parsed
                  [{ url := "", title := "no url", published_at := "2025-03-01",
                     thumbnail_url := "", source := "" },
                   { url := "https://x/4", title := "T4", published_at := "2025-03-02",
                     thumbnail_url := "", source := "" }],
                url := none, title := none, published_at := none, thumbnail_url := none },
    dbFail := false }

/-- Concrete entry with a url-bearing record but an empty batch_id. -/
def noKeyEntry : EntryMsg :=
  { mid := "m10",
    fields := { batch_id := "", source := "toss",
                records := RecordsField.parsed
                  [{ url := "https://x/9", title := "T9", published_at := "2025-04-01",
                     thumbnail_url := "", source := "" }],
                url := none, title := none, published_at := none, thumbnail_url := none },
    dbFail := false }

/-- Helper: `mark_done` never decreases any counter. -/
theorem mark_done_mono (done : String × String → Nat) (key : String × String) (n : Nat)
    (k : String × String) : done k ≤ mark_done done key n k := by
  unfold mark_done
  split
  · rename_i h
    rw [h]
    exact Nat.le_add_right _ _
  · exact Nat.le_refl _

/-- Helper: one processed entry never decreases any done counter. -/
theorem processEntry_done_mono (cmap : List (String × List String)) (st : ProcState)
    (e : EntryMsg) (k : String × String) : st.done k ≤ (processEntry cmap st e).done k := by
  simp only [processEntry]
  split_ifs <;> first
    | exact Nat.le_refl _
    | exact mark_done_mono _ _ _ _

/-- Helper: a whole polled batch never decreases any done counter. -/
theorem foldl_done_mono (cmap : List (String × List String)) (entries : List EntryMsg)
    (st : ProcState) (k : String × String) :
    st.done k ≤ (entries.foldl (processEntry cmap) st).done k := by
  induction entries generalizing st with
  | nil => exact Nat.le_refl _
  | cons e rest ih =>
      exact Nat.le_trans (processEntry_done_mono cmap st e k) (ih (processEntry cmap st e))

/-- Helper: the record written by `newsUpsert` is present afterwards. -/
theorem dbHasNews_newsUpsert_self (db : Db) (c : String) (rec : RecordItem)
    (h : rec.url ≠ "") : dbHasNews (newsUpsert db c rec) (c, rec.url) = true := by
  unfold newsUpsert dbHasNews
  rw [if_neg h]
  split_ifs with hmem
  · rw [List.any_eq_true] at hmem ⊢
    rcases hmem with ⟨kv, hkv, hk⟩
    rw [beq_iff_eq] at hk
    have hmm := List.mem_map_of_mem
      (fun kv : (String × String) × NewsRow =>
        if kv.1 = (c, rec.url) then
          (kv.1, { title := rec.title, published_at := parse_date_yyyy_mm_dd rec.published_at,
                   thumbnail_url := rec.thumbnail_url }) else kv) hkv
    dsimp only at hmm
    rw [if_pos hk] at hmm
    exact ⟨(kv.1, _), hmm, by rw [beq_iff_eq]; exact hk⟩
  · simp [List.any_append]

/-- Helper: `newsUpsert` never removes a present key. -/
theorem dbHasNews_newsUpsert_mono (db : Db) (c : String) (rec : RecordItem)
    (k : String × String) (h : dbHasNews db k = true) :
    dbHasNews (newsUpsert db c rec) k = true := by
  unfold newsUpsert dbHasNews at *
  split_ifs with h1 h2
  · exact h
  · rw [List.any_eq_true] at h ⊢
    rcases h with ⟨kv, hkv, hk⟩
    by_cases hkey : kv.1 = (c, rec.url)
    · have hmm := List.mem_map_of_mem
        (fun kv : (String × String) × NewsRow =>
          if kv.1 = (c, rec.url) then
            (kv.1, { title := rec.title, published_at := parse_date_yyyy_mm_dd rec.published_at,
                     thumbnail_url := rec.thumbnail_url }) else kv) hkv
      dsimp only at hmm
      rw [if_pos hkey] at hmm
      exact ⟨(kv.1, _), hmm, hk⟩
    · have hmm := List.mem_map_of_mem
        (fun kv : (String × String) × NewsRow =>
          if kv.1 = (c, rec.url) then
            (kv.1, { title := rec.title, published_at := parse_date_yyyy_mm_dd rec.published_at,
                     thumbnail_url := rec.thumbnail_url }) else kv) hkv
      dsimp only at hmm
      rw [if_neg hkey] at hmm
      exact ⟨kv, hmm, hk⟩
  · simp only [List.any_append, Bool.or_eq_true]
    exact Or.inl h

/-- Helper: keys stay present across the per-entry fold of `newsUpsert`. -/
theorem dbHasNews_fold_mono (c : String) (l : List RecordItem) (db : Db)
    (k : String × String) (h : dbHasNews db k = true) :
    dbHasNews (l.foldl (fun d rec => newsUpsert d c rec) db) k = true := by
  induction l generalizing db with
  | nil => exact h
  | cons a rest ih => exact ih (newsUpsert db c a) (dbHasNews_newsUpsert_mono db c a k h)

/-- Helper: every url-bearing record of the fold ends up present. -/
theorem dbHasNews_fold_mem (c : String) (l : List RecordItem) (db : Db)
    (rec : RecordItem) (hm : rec ∈ l) (hu : rec.url ≠ "") :
    dbHasNews (l.foldl (fun d r => newsUpsert d c r) db) (c, rec.url) = true := by
  revert hm
  induction l generalizing db with
  | nil =>
      intro hm
      cases hm
  | cons a rest ih =>
      intro hm
      rcases List.mem_cons.mp hm with h | h
      · subst h
        exact dbHasNews_fold_mono c rest _ _ (dbHasNews_newsUpsert_self db c rec hu)
      · exact ih (newsUpsert db c a) h

/-- C5 counterexample: with no required sources configured and `expected` still
empty, every key of `expected` vacuously satisfies `done ≥ expected`, yet the code
returns False (line 202-203), so the claimed "if and only if" fails. -/
theorem all_finished_empty_cex :
    all_finished [] [] (fun _ => 0) = false ∧
    all_finished_claim [] [] (fun _ => 0) = true :=
  ⟨rfl, rfl⟩

/-- C5 amended: `all_finished` is true iff `expected` is **non-empty**, every key
present in `expected` has `done ≥ expected`, and every configured required source
appears as the source component of at least one key of `expected`. -/
theorem all_finished_iff (required : List String) (expected : List ((String × String) × Nat))
    (done : String × String → Nat) :
    all_finished required expected done = true ↔
      expected ≠ [] ∧
      (∀ kv ∈ expected, kv.2 ≤ done kv.1) ∧
      (∀ s ∈ required, ∃ kv ∈ expected, kv.1.2 = s) := by
  unfold all_finished
  rcases expected with _ | ⟨kv0, rest⟩
  · simp
  · simp only [List.isEmpty_cons, Bool.false_eq_true, if_false]
    rcases Bool.eq_false_or_eq_true
        (required.all (fun s => (kv0 :: rest).any (fun kv => kv.1.2 == s))) with hall | hall
    · rw [hall]
      have hreq : ∀ s ∈ required, ∃ kv ∈ kv0 :: rest, kv.1.2 = s := by
        simpa only [List.all_eq_true, List.any_eq_true, beq_iff_eq] using hall
      simp only [Bool.not_true, Bool.and_false, Bool.false_eq_true, if_false,
        List.all_eq_true, decide_eq_true_eq]
      exact ⟨fun h => ⟨by simp, h, hreq⟩, fun h => h.2.1⟩
    · rw [hall]
      have hne : required ≠ [] := by
        rintro rfl
        cases hall
      have hni : (!required.isEmpty) = true := by
        rcases required with _ | _
        · exact absurd rfl hne
        · rfl
      rw [hni]
      have hnc : ¬ (∀ s ∈ required, ∃ kv ∈ kv0 :: rest, kv.1.2 = s) := by
        intro h
        have : required.all (fun s => (kv0 :: rest).any (fun kv => kv.1.2 == s)) = true := by
          simp only [List.all_eq_true, List.any_eq_true, beq_iff_eq]
          exact h
        rw [hall] at this
        cases this
      simp only [Bool.not_false, Bool.true_and, if_true, Bool.false_eq_true, false_iff]
      rintro ⟨-, -, hc⟩
      exact hnc hc

/-- C6 counterexample: well before the `MAX_RUN` cap (elapsed 500 s of 1800 s), with
`all_finished` true and the quiet window satisfied, a failing pending-count query
(lines 345-347) makes the loop stop although the records stream has 5 pending
entries, so the stop does not require zero pending counts. -/
theorem exit_quiet_nonzero_pending_cex :
    exitDecision 120 1800 [] [(("b1", "toss"), 1)] (fun _ => 1)
      { now := 500, last_activity := 0, start_ts := 0,
        pend1 := (5, 0), q1ok := false, pend2 := (5, 0), q2ok := false } =
      some ExitReason.finishedQuiet := by
  decide

/-- C6 amended: before the `MAX_RUN` cap fires, the loop stops only when the quiet
window has elapsed, and then the completion path additionally requires
`all_finished` together with either a zero pending read or a failed pending query,
while the no-sentinel fallback requires either a zero pending read with `expected`
still empty or a failed pending query. -/
theorem exit_before_maxrun (QUIET_S MAX_RUN_S : Nat) (required : List String)
    (expected : List ((String × String) × Nat)) (done : String × String → Nat)
    (o : ExitObs) (hmax : ¬ MAX_RUN_S ≤ o.now - o.start_ts) (r : ExitReason)
    (h : exitDecision QUIET_S MAX_RUN_S required expected done o = some r) :
    QUIET_S ≤ o.now - o.last_activity ∧ r ≠ ExitReason.maxRun ∧
    (r = ExitReason.finishedQuiet →
        all_finished required expected done = true ∧
        (o.q1ok = false ∨ (o.pend1.1 = 0 ∧ o.pend1.2 = 0))) ∧
    (r = ExitReason.quietFallback →
        (o.q2ok = false ∨ (o.pend2.1 = 0 ∧ o.pend2.2 = 0 ∧ expected = []))) := by
  unfold exitDecision at h
  simp only [if_neg hmax] at h
  split_ifs at h <;>
    simp_all [List.isEmpty_iff] <;>
    rcases h with rfl <;>
    simp_all

/-- Witness for C6 amended at a concrete no-sentinel fallback exit. -/
theorem exit_before_maxrun_w :
    120 ≤ exitObsQuiet.now - exitObsQuiet.last_activity ∧
    ExitReason.quietFallback ≠ ExitReason.maxRun ∧
    (ExitReason.quietFallback = ExitReason.finishedQuiet →
        all_finished [] [] (fun _ => 0) = true ∧
        (exitObsQuiet.q1ok = false ∨
          (exitObsQuiet.pend1.1 = 0 ∧ exitObsQuiet.pend1.2 = 0))) ∧
    (ExitReason.quietFallback = ExitReason.quietFallback →
        (exitObsQuiet.q2ok = false ∨
          (exitObsQuiet.pend2.1 = 0 ∧ exitObsQuiet.pend2.2 = 0 ∧
           ([] : List ((String × String) × Nat)) = []))) :=
  exit_before_maxrun 120 1800 [] [] (fun _ => 0) exitObsQuiet (by decide)
    ExitReason.quietFallback (by decide)

/-- C7: once the elapsed run time reaches `MAX_RUN_S`, the decision is to stop, for
every progress state, activity timestamp and pending observation. -/
theorem exit_maxrun_always_stops (QUIET_S MAX_RUN_S : Nat) (required : List String)
    (expected : List ((String × String) × Nat)) (done : String × String → Nat)
    (o : ExitObs) (hmax : MAX_RUN_S ≤ o.now - o.start_ts) :
    (exitDecision QUIET_S MAX_RUN_S required expected done o).isSome = true := by
  unfold exitDecision
  simp only [if_pos hmax]
  split_ifs <;> rfl

/-- Witness for C7: the cap fires in a fully inactive, unfinished state. -/
theorem exit_maxrun_always_stops_w :
    (exitDecision 120 1800 ["toss"] [(("b1", "toss"), 9)] (fun _ => 0)
      { now := 1800, last_activity := 1799, start_ts := 0,
        pend1 := (7, 3), q1ok := true, pend2 := (7, 3), q2ok := true }).isSome = true :=
  exit_maxrun_always_stops 120 1800 ["toss"] [(("b1", "toss"), 9)] (fun _ => 0)
    { now := 1800, last_activity := 1799, start_ts := 0,
      pend1 := (7, 3), q1ok := true, pend2 := (7, 3), q2ok := true } (by decide)

/-- C8: for every non-empty `published_at` string the stored value is exactly the
first 10 characters (`s[:10]`), so an ISO-like timestamp loses its time-of-day and
timezone suffix, and a string of 10 characters or fewer passes through unchanged. -/
theorem parse_date_takes_first_ten (s : String) (h : s ≠ "") :
    parse_date_yyyy_mm_dd s = some ⟨s.data.take 10⟩ ∧
    (s.length ≤ 10 → parse_date_yyyy_mm_dd s = some s) := by
  constructor
  · simp [parse_date_yyyy_mm_dd, h]
  · intro hl
    simp only [parse_date_yyyy_mm_dd, if_neg h, Option.some.injEq]
    exact String.ext (List.take_of_length_le hl)

/-- Witness for C8 at the spec's own example timestamp and at a short date. -/
theorem parse_date_takes_first_ten_w :
    (parse_date_yyyy_mm_dd "2025-01-02T03:04:05Z" = some ⟨("2025-01-02T03:04:05Z" : String).data.take 10⟩ ∧
      (("2025-01-02T03:04:05Z" : String).length ≤ 10 →
        parse_date_yyyy_mm_dd "2025-01-02T03:04:05Z" = some "2025-01-02T03:04:05Z")) ∧
    (parse_date_yyyy_mm_dd "2025-01-03" = some ⟨("2025-01-03" : String).data.take 10⟩ ∧
      (("2025-01-03" : String).length ≤ 10 →
        parse_date_yyyy_mm_dd "2025-01-03" = some "2025-01-03")) :=
  ⟨parse_date_takes_first_ten "2025-01-02T03:04:05Z" (by decide),
   parse_date_takes_first_ten "2025-01-03" (by decide)⟩

/-- C9 counterexample: the empty (missing) source is not a key of the table, yet the
fallback is `("unknown", "미지정")`, not the raw source string for both fields. -/
theorem get_company_names_empty_source_cex :
    mapGet DEFAULT_COMPANY_MAP (pyLower (pyStrip "")) = none ∧
    get_company_names DEFAULT_COMPANY_MAP "" = ("unknown", "미지정") := by
  decide

/-- C9 amended: resolution looks up the stripped, lowered source in the table; a
mapped pair of length ≥ 2 is returned as `(name, name_kr)`; a source missing from
the table falls back to the **stripped** source string for both fields when
non-empty, and to `("unknown", "미지정")` when empty. -/
theorem get_company_names_spec (cmap : List (String × List String)) (src : String) :
    (∀ pair, mapGet cmap (pyLower (pyStrip src)) = some pair → 2 ≤ pair.length →
        get_company_names cmap src = (pair.getD 0 "", pair.getD 1 "")) ∧
    (mapGet cmap (pyLower (pyStrip src)) = none → src ≠ "" →
        get_company_names cmap src = (pyStrip src, pyStrip src)) ∧
    (mapGet cmap (pyLower (pyStrip src)) = none → src = "" →
        get_company_names cmap src = ("unknown", "미지정")) := by
  refine ⟨fun pair hp hl => ?_, fun hn hne => ?_, fun hn he => ?_⟩
  · simp only [get_company_names, hp, if_pos hl]
  · simp only [get_company_names, hn, if_neg hne]
  · subst he
    simp only [get_company_names] at hn ⊢
    rw [hn]
    decide

/-- Witness for C9 amended: a padded known source resolves through the table, and an
unknown source falls back to the stripped raw string. -/
theorem get_company_names_spec_w :
    get_company_names DEFAULT_COMPANY_MAP " Toss " = ("Toss", "토스") ∧
    get_company_names DEFAULT_COMPANY_MAP "foo" = (pyStrip "foo", pyStrip "foo") :=
  ⟨(get_company_names_spec DEFAULT_COMPANY_MAP " Toss ").1 ["Toss", "토스"]
      (by decide) (by decide),
   (get_company_names_spec DEFAULT_COMPANY_MAP "foo").2.1 (by decide) (by decide)⟩

/-- C1 counterexample: a batch holding one well-formed two-record entry whose
`db.commit()` fails.  The entry's count has already been added to `done` (line 305
runs before line 318), although the commit never succeeded and the entry was never
acked — refuting "only after that commit succeeds is … its record count added". -/
theorem batch_done_added_before_commit_cex :
    (processBatch DEFAULT_COMPANY_MAP emptyDb (fun _ => 0) [] [sampleEntry] false).committed
        = false ∧
    (processBatch DEFAULT_COMPANY_MAP emptyDb (fun _ => 0) [] [sampleEntry] false).done
        ("b1", "toss") = 2 ∧
    (processBatch DEFAULT_COMPANY_MAP emptyDb (fun _ => 0) [] [sampleEntry] false).acks = [] ∧
    (processBatch DEFAULT_COMPANY_MAP emptyDb (fun _ => 0) [] [sampleEntry] false).db
        = emptyDb := by
  refine ⟨rfl, by decide, rfl, rfl⟩

/-- C1 amended: all database writes of one polled batch commit as a single
transaction (no commit, no database change), ids are acked only after the commit
succeeds (no commit, no acks), but each entry's record count is added to `done`
while the entry is processed, before and independently of the commit. -/
theorem batch_commit_transaction_order (cmap : List (String × List String)) (db : Db)
    (done : String × String → Nat) (dlq : List DeadLetterEntry) (entries : List EntryMsg) :
    (processBatch cmap db done dlq entries false).acks = [] ∧
    (processBatch cmap db done dlq entries false).db = db ∧
    (processBatch cmap db done dlq entries false).done =
      (processBatch cmap db done dlq entries true).done ∧
    (processBatch cmap db done dlq entries true).db =
      (entries.foldl (processEntry cmap) { db := db, done := done, dlq := dlq, acks := [] }).db :=
  ⟨rfl, rfl, rfl, rfl⟩

/-- C2 counterexample: a well-formed entry whose database write raises is
dead-lettered but **not** acked (the `except` at lines 311-316 never appends to
`ack_r`), refuting "still acknowledges the entry". -/
theorem db_failure_not_acked_cex :
    (processEntry DEFAULT_COMPANY_MAP procState0 poisonedEntry).dlq.length = 1 ∧
    (processEntry DEFAULT_COMPANY_MAP procState0 poisonedEntry).acks = [] := by
  decide

/-- C2 amended: on a database error while processing an entry, the loader writes a
dead-letter entry capturing the original fields and a reason, does **not**
acknowledge the entry (it remains pending), leaves `done` untouched, and the loop
continues with the other entries of the batch. -/
theorem db_failure_dead_letter_no_ack (cmap : List (String × List String)) (st : ProcState)
    (e : EntryMsg) (hfail : e.dbFail = true) (hne : decodeRecords e.fields ≠ []) :
    (processEntry cmap st e).dlq =
      st.dlq ++ [{ stream := "crawl:records", msg_id := e.mid,
                   reason := "database error", fields := e.fields }] ∧
    (processEntry cmap st e).acks = st.acks ∧
    (processEntry cmap st e).done = st.done := by
  have hrecs : (decodeRecords e.fields).isEmpty = false := by
    simp [List.isEmpty_iff, hne]
  simp only [processEntry, hrecs, hfail, Bool.false_eq_true, if_false, if_true]
  exact ⟨trivial, trivial, trivial⟩

/-- Witness for C2 amended at the concrete poisoned entry. -/
theorem db_failure_dead_letter_no_ack_w :
    (processEntry DEFAULT_COMPANY_MAP procState0 poisonedEntry).dlq =
      procState0.dlq ++ [{ stream := "crawl:records", msg_id := poisonedEntry.mid,
                           reason := "database error", fields := poisonedEntry.fields }] ∧
    (processEntry DEFAULT_COMPANY_MAP procState0 poisonedEntry).acks = procState0.acks ∧
    (processEntry DEFAULT_COMPANY_MAP procState0 poisonedEntry).done = procState0.done :=
  db_failure_dead_letter_no_ack DEFAULT_COMPANY_MAP procState0 poisonedEntry rfl (by decide)

/-- C3 counterexample: an entry whose `records` string is invalid JSON (and that
has no inline fields) is acked with **no** dead-letter entry: the parse failure is
caught at lines 256-258 and degraded to an empty record list, so it never reaches
the dead-letter path — refuting "writes a dead-letter entry with a reason string". -/
theorem invalid_json_no_dead_letter_cex :
    (processEntry DEFAULT_COMPANY_MAP procState0 invalidJsonEntry).dlq = [] ∧
    (processEntry DEFAULT_COMPANY_MAP procState0 invalidJsonEntry).acks = ["m3"] := by
  decide

/-- C3 amended: an entry whose `records` field is a string that is not valid JSON
(and that carries no inline single-record fields) is treated as having no records:
a warning is logged, **no** dead-letter entry is written, the entry is
acknowledged, and the whole state is otherwise unchanged, so subsequent entries
proceed normally. -/
theorem invalid_json_acked_no_dead_letter (cmap : List (String × List String))
    (st : ProcState) (e : EntryMsg) (raw : String)
    (hrecs : e.fields.records = RecordsField.invalid raw)
    (hu : e.fields.url = none) (ht : e.fields.title = none)
    (hp : e.fields.published_at = none) (hth : e.fields.thumbnail_url = none) :
    processEntry cmap st e = { st with acks := st.acks ++ [e.mid] } := by
  have hdec : decodeRecords e.fields = [] := by
    simp [decodeRecords, hrecs, hu, ht, hp, hth]
  simp [processEntry, hdec]

/-- Witness for C3 amended at the concrete invalid-JSON entry. -/
theorem invalid_json_acked_no_dead_letter_w :
    processEntry DEFAULT_COMPANY_MAP procState0 invalidJsonEntry =
      { procState0 with acks := procState0.acks ++ [invalidJsonEntry.mid] } :=
  invalid_json_acked_no_dead_letter DEFAULT_COMPANY_MAP procState0 invalidJsonEntry
    "not valid json" rfl rfl rfl rfl rfl

/-- C4 counterexample: an entry with one url-less record (skipped at lines
290-291, never written) and one url-bearing record bumps `done` by 2 while only
one news row exists — refuting "incremented only by records that carry a non-empty
url and were successfully written". -/
theorem done_counts_skipped_records_cex :
    (processEntry DEFAULT_COMPANY_MAP procState0 mixedUrlEntry).done ("b4", "toss") = 2 ∧
    (processEntry DEFAULT_COMPANY_MAP procState0 mixedUrlEntry).db.news.length = 1 := by
  decide

/-- C4 amended: every `done` counter is monotonically non-decreasing across
processing, and a successfully processed entry with non-empty key components
increments its key by the **total** number of decoded records of the entry,
including url-less records that are skipped and never written. -/
theorem done_monotone_and_entry_increment :
    (∀ (cmap : List (String × List String)) (db : Db) (done : String × String → Nat)
        (dlq : List DeadLetterEntry) (entries : List EntryMsg) (commitOk : Bool)
        (k : String × String),
        done k ≤ (processBatch cmap db done dlq entries commitOk).done k) ∧
    (∀ (cmap : List (String × List String)) (st : ProcState) (e : EntryMsg),
        e.dbFail = false → decodeRecords e.fields ≠ [] →
        (entryKey e.fields).1 ≠ "" → (entryKey e.fields).2 ≠ "" →
        (processEntry cmap st e).done (entryKey e.fields) =
          st.done (entryKey e.fields) + (decodeRecords e.fields).length) := by
  constructor
  · intro cmap db done dlq entries commitOk k
    simp only [processBatch]
    split_ifs <;>
      exact foldl_done_mono cmap entries { db := db, done := done, dlq := dlq, acks := [] } k
  · intro cmap st e hfail hne h1 h2
    have hrecs : (decodeRecords e.fields).isEmpty = false := by
      simp [List.isEmpty_iff, hne]
    simp only [processEntry, hrecs, hfail, Bool.false_eq_true, if_false,
      if_pos (And.intro h1 h2)]
    simp [mark_done]

/-- Witness for C4 amended: monotonicity and the exact increment at the concrete
mixed-url entry. -/
theorem done_monotone_and_entry_increment_w :
    ((fun _ => 0 : String × String → Nat) ("b4", "toss") ≤
      (processBatch DEFAULT_COMPANY_MAP emptyDb (fun _ => 0) [] [mixedUrlEntry] true).done
        ("b4", "toss")) ∧
    (processEntry DEFAULT_COMPANY_MAP procState0 mixedUrlEntry).done
        (entryKey mixedUrlEntry.fields) =
      procState0.done (entryKey mixedUrlEntry.fields) +
        (decodeRecords mixedUrlEntry.fields).length :=
  ⟨done_monotone_and_entry_increment.1 DEFAULT_COMPANY_MAP emptyDb (fun _ => 0) []
      [mixedUrlEntry] true ("b4", "toss"),
   done_monotone_and_entry_increment.2 DEFAULT_COMPANY_MAP procState0 mixedUrlEntry rfl
      (by decide) (by decide) (by decide)⟩

/-- C10: an entry whose batch_id is empty, or whose top-level source and first
record source are both empty after normalisation, leaves the whole `done` table
unchanged (lines 303-305 guard `mark_done`), while the entry is still acked and
every url-bearing record of the entry is still present in the news table. -/
theorem empty_key_entry_frame (cmap : List (String × List String)) (st : ProcState)
    (e : EntryMsg) (hok : e.dbFail = false) (hne : decodeRecords e.fields ≠ [])
    (hkey : e.fields.batch_id = "" ∨
        (normSource e.fields.source = "" ∧
         normSource ((decodeRecords e.fields).headD defaultRecordItem).source = "")) :
    (processEntry cmap st e).done = st.done ∧
    (processEntry cmap st e).acks = st.acks ++ [e.mid] ∧
    (∀ rec ∈ decodeRecords e.fields, rec.url ≠ "" →
      dbHasNews (processEntry cmap st e).db
        ((get_company_names cmap
            (if normSource e.fields.source = ""
             then ((decodeRecords e.fields).headD defaultRecordItem).source
             else normSource e.fields.source)).1,
         rec.url) = true) := by
  have hrecs : (decodeRecords e.fields).isEmpty = false := by
    simp [List.isEmpty_iff, hne]
  have hkc : ¬ ((entryKey e.fields).1 ≠ "" ∧ (entryKey e.fields).2 ≠ "") := by
    unfold entryKey
    rcases hkey with h | ⟨h1, h2⟩
    · intro hc
      exact hc.1 h
    · intro hc
      apply hc.2
      dsimp only
      rw [if_pos h1]
      exact h2
  simp only [processEntry, hrecs, hok, Bool.false_eq_true, if_false, if_neg hkc]
  refine ⟨trivial, trivial, ?_⟩
  intro rec hm hu
  exact dbHasNews_fold_mem _ _ _ rec hm hu

/-- Witness for C10 at the concrete empty-batch-id entry. -/
theorem empty_key_entry_frame_w :
    (processEntry DEFAULT_COMPANY_MAP procState0 noKeyEntry).done = procState0.done ∧
    (processEntry DEFAULT_COMPANY_MAP procState0 noKeyEntry).acks =
      procState0.acks ++ [noKeyEntry.mid] ∧
    (∀ rec ∈ decodeRecords noKeyEntry.fields, rec.url ≠ "" →
      dbHasNews (processEntry DEFAULT_COMPANY_MAP procState0 noKeyEntry).db
        ((get_company_names DEFAULT_COMPANY_MAP
            (if normSource noKeyEntry.fields.source = ""
             then ((decodeRecords noKeyEntry.fields).headD defaultRecordItem).source
             else normSource noKeyEntry.fields.source)).1,
         rec.url) = true) :=
  empty_key_entry_frame DEFAULT_COMPANY_MAP procState0 noKeyEntry rfl (by decide)
    (Or.inl rfl)

end Loader
